import Mathlib

/-!
Shallow embedding of `lib/data/video.py`: the synthetic video generators
(`VideoSynthBase`, `Chess`, `Book`, `Cube`), the preset table and the
`create_capture` factory.

External collaborators (OpenCV image routines, numpy trigonometry, the
`TestSceneRender` engine from `lib/data/tst_scene_render.py` and the
`common.lookat` / `common.mtx2rvec` geometry helpers, none of which are part
of the analysed source file) are modelled as an explicit environment `Env`
of opaque functions.  Machine floating-point numbers are idealised as
rationals.
-/

/-- Python `str.strip()`: drop leading and trailing whitespace. -/
def pyStrip (s : String) : String :=
  ⟨(s.toList.dropWhile Char.isWhitespace).reverse.dropWhile Char.isWhitespace |>.reverse⟩

/-- Helper for Python `str.split(sep)` with a one-character separator. -/
def pySplitAux (c : Char) : List Char → List (List Char)
  | [] => [[]]
  | x :: xs =>
    match pySplitAux c xs with
    | [] => [[]]
    | g :: gs => if x = c then [] :: g :: gs else (x :: g) :: gs

/-- Python `str.split(sep)` for a one-character separator. -/
def pySplit (c : Char) (s : String) : List String :=
  (pySplitAux c s.toList).map (fun l => ⟨l⟩)

/-- Numeric value of a digit string. -/
def digitsVal (l : List Char) : Nat :=
  l.foldl (fun a c => a * 10 + (c.toNat - '0'.toNat)) 0

/-- Python `int(str)`: optional sign, then decimal digits (whitespace stripped). -/
def pyInt (s : String) : Option Int :=
  match (pyStrip s).toList with
  | '-' :: rest =>
    if rest ≠ [] ∧ rest.all Char.isDigit then some (-(digitsVal rest : Int)) else none
  | '+' :: rest =>
    if rest ≠ [] ∧ rest.all Char.isDigit then some (digitsVal rest : Int) else none
  | rest =>
    if rest ≠ [] ∧ rest.all Char.isDigit then some (digitsVal rest : Int) else none

/-- Magnitude part of Python `float(str)` (decimal notation). -/
def pyFloatMag (l : List Char) : Option ℚ :=
  match pySplitAux '.' l with
  | [i] => if i ≠ [] ∧ i.all Char.isDigit then some (digitsVal i : ℚ) else none
  | [i, f] =>
    if (i ≠ [] ∨ f ≠ []) ∧ i.all Char.isDigit ∧ f.all Char.isDigit then
      some ((digitsVal i : ℚ) + (digitsVal f : ℚ) / (10 ^ f.length))
    else none
  | _ => none

/-- Python `float(str)` restricted to decimal notation, idealised over `ℚ`. -/
def pyFloat (s : String) : Option ℚ :=
  match (pyStrip s).toList with
  | '-' :: rest => (pyFloatMag rest).map Neg.neg
  | '+' :: rest => pyFloatMag rest
  | rest => pyFloatMag rest

/-- `w, h = map(int, size.split('x'))` — exactly two `x`-separated integers,
anything else raises `ValueError`. -/
def parseSize (s : String) : Option (Int × Int) :=
  match pySplit 'x' s with
  | [a, b] => do pure (← pyInt a, ← pyInt b)
  | _ => none

/-- An 8-bit three-channel image buffer (`numpy` array of shape `(h, w, 3)`). -/
structure Image where
  width : Nat
  height : Nat
  px : Nat → Nat → Fin 3 → Fin 256

/-- `np.zeros((h, w, 3), np.uint8)`. -/
def zeroImage (w h : Nat) : Image := ⟨w, h, fun _ _ _ => 0⟩

/-- 3-vectors of (idealised) reals. -/
abbrev Vec3 := ℚ × ℚ × ℚ

/-- 3×3 matrices, kept in the row-list form of the `np.float64([[...]])` literal. -/
abbrev Mat3 := List (List ℚ)

/-- The state of a `TestSceneRender` engine (`lib/data/tst_scene_render.py` is not part
of the analysed source).  Modelled from the spec: an injected rendering engine that
holds a scene background and produces one fully rendered frame of that background's
size per `getNextFrame()` call; its animation state is a frame counter. -/
structure TSREngine where
  sceneBg : Image
  framePx : Nat → Nat → Nat → Fin 3 → Fin 256

/-- The external world: OpenCV primitives, numpy trigonometry, the geometry helpers of
`lib/data/common.py` and the `TestSceneRender` constructor, all opaque to `video.py`. -/
structure Env where
  /-- `cv.imread(path, ...)`: `none` models a failed load (Python `None`). -/
  imread : String → Option Image
  /-- Pixel content produced by `cv.resize(img, (w, h))`. -/
  resizePx : Image → Nat → Nat → Nat → Nat → Fin 3 → Fin 256
  /-- Standard-normal draws used by `cv.randn`, indexed by an RNG counter and pixel. -/
  gauss : Nat → Nat → Nat → Fin 3 → ℚ
  /-- Whether `cv.VideoCapture(source).isOpened()` for a device index or path. -/
  videoCaptureOpens : Int ⊕ String → Bool
  /-- numpy `sin`. -/
  sin : ℚ → ℚ
  /-- numpy `cos`. -/
  cos : ℚ → ℚ
  /-- numpy `pi`. -/
  pi : ℚ
  /-- `common.lookat(eye, target)`: rotation matrix and translation vector. -/
  lookat : Vec3 → Vec3 → Mat3 × Vec3
  /-- `common.mtx2rvec(R)`: compact rotation-vector form. -/
  mtx2rvec : Mat3 → Vec3
  /-- `cv.projectPoints(pts, rvec, tvec, K, dist)[0]`. -/
  projectPoints : List Vec3 → Vec3 → Vec3 → Mat3 → List ℚ → List (ℚ × ℚ)
  /-- Pixel content after `cv.fillConvexPoly(img, pts, color, cv.LINE_AA, shift)`. -/
  fillConvexPoly : Image → List (Int × Int) → Nat × Nat × Nat → Nat →
    Nat → Nat → Fin 3 → Fin 256
  /-- `TestSceneRender(bg, fgr, deformation, speed)`; `none` models a raised exception. -/
  mkTSR : Option Image → Option Image → Bool → ℚ → Option TSREngine

/-- `cv.resize(img, (w, h))`: the result has exactly the requested size. -/
def resizeImg (e : Env) (img : Image) (w h : Nat) : Image :=
  ⟨w, h, e.resizePx img w h⟩

/-- Saturating cast of a real sample into a signed 8-bit noise cell (`np.int8`). -/
def int8OfRat (q : ℚ) : Int :=
  max (-128) (min 127 (round q))

/-- `cv.add(_, _, dtype=cv.CV_8UC3)` per-cell saturating addition. -/
def satAdd8 (a : Fin 256) (n : Int) : Fin 256 :=
  let v : Int := (a : Nat) + n
  if h : v ≤ 0 then ⟨0, by omega⟩
  else if h2 : 255 ≤ v then ⟨255, by omega⟩
  else ⟨v.toNat, by omega⟩

/-- `cv.randn(noise, zeros(3), ones(3)*sigma)` followed by
`cv.add(buf, noise, dtype=cv.CV_8UC3)`. -/
def noisy (e : Env) (rng : Nat) (sigma : ℚ) (buf : Image) : Image :=
  { buf with px := fun x y c => satAdd8 (buf.px x y c) (int8OfRat (sigma * e.gauss rng x y c)) }

/-- Python `dict(pairs)` lookup with default `None`: the LAST binding of a key wins. -/
def dictGet (k : String) (l : List (String × String)) : Option String :=
  (l.reverse.find? (fun p => p.1 == k)).map (·.2)

/-- The state written by `VideoSynthBase.__init__`. -/
structure VideoSynthBase where
  bg : Option Image
  frame_size : Nat × Nat
  noise : ℚ

/-- `VideoSynthBase.__init__(size, noise, bg, **params)` with all-string keyword
arguments coming from the descriptor; `none` models a raised exception. -/
def VideoSynthBase.init (e : Env) (params : List (String × String)) :
    Option VideoSynthBase :=
  -- self.bg = None ; self.frame_size = (640, 480) ; then the bg branch
  match (match dictGet "bg" params with
    | none => some ((none : Option Image), ((640 : Nat), (480 : Nat)))
    | some p =>
      match e.imread p with
      | none => none      -- `self.bg.shape` on Python `None` raises
      | some img => some (some img, (img.width, img.height))) with
  | none => none
  | some (bg0, fs0) =>
    -- the size branch
    match (match dictGet "size" params with
      | none => some (bg0, fs0)
      | some s =>
        match parseSize s with
        | none => none      -- `map(int, size.split('x'))` raises
        | some wh =>
          match bg0 with
          | none => none    -- `cv.resize(None, ...)` raises
          | some img =>
            if 0 < wh.1 ∧ 0 < wh.2 then
              some (some (resizeImg e img wh.1.toNat wh.2.toNat), (wh.1.toNat, wh.2.toNat))
            else none) with  -- `cv.resize` rejects a non-positive dsize
    | none => none
    | some (bg1, fs1) =>
      match (match dictGet "noise" params with
        | none => some (0 : ℚ)  -- default `noise=0.0`
        | some s => pyFloat s) with  -- `float(noise)` raises on malformed input
      | none => none
      | some noiseq => some { bg := bg1, frame_size := fs1, noise := noiseq }

/-- The state written by `Chess.__init__` on top of the base state. -/
structure Chess where
  base : VideoSynthBase
  grid_size : Nat × Nat
  white_quads : List (List Vec3)
  black_quads : List (List Vec3)
  K : Mat3
  dist_coef : List ℚ
  t : ℚ
  rvec : Option Vec3
  tvec : Option Vec3

/-- One checkerboard cell: `[[j, i, 0], [j+1, i, 0], [j+1, i+1, 0], [j, i+1, 0]]`. -/
def chessQuad (j i : Nat) : List Vec3 :=
  [((j : ℚ), (i : ℚ), 0), ((j : ℚ) + 1, (i : ℚ), 0),
   ((j : ℚ) + 1, (i : ℚ) + 1, 0), ((j : ℚ), (i : ℚ) + 1, 0)]

/-- `np.ndindex(sy, sx)` in row-major order. -/
def ndindex (sy sx : Nat) : List (Nat × Nat) :=
  (List.range sy).flatMap (fun i => (List.range sx).map (fun j => (i, j)))

/-- `Chess.__init__` (the part after the base constructor); it never raises. -/
def Chess.init (b : VideoSynthBase) : Chess :=
  let w := b.frame_size.1
  let h := b.frame_size.2
  let sx := 10
  let sy := 7
  let cells := ndindex sy sx
  { base := b
    grid_size := (sx, sy)
    white_quads := (cells.filter (fun p => (p.1 + p.2) % 2 == 0)).map (fun p => chessQuad p.2 p.1)
    black_quads := (cells.filter (fun p => (p.1 + p.2) % 2 == 1)).map (fun p => chessQuad p.2 p.1)
    K := [[(9 / 10 : ℚ) * w, 0, (1 / 2 : ℚ) * ((w : ℚ) - 1)],
          [0, (9 / 10 : ℚ) * w, (1 / 2 : ℚ) * ((h : ℚ) - 1)],
          [0, 0, 1]]
    dist_coef := [-(1 / 5), 1 / 10, 0, 0]
    t := 0
    rvec := none
    tvec := none }

/-- The state written by `Book.__init__`: the base state plus the injected
`TestSceneRender` engine (whose animation state is a frame counter). -/
structure Book where
  base : VideoSynthBase
  render : TSREngine
  rtime : Nat

/-- `Book.__init__`: base constructor, then
`TestSceneRender(cv.imread('../data/graf1.png'), cv.imread('../data/box.png'), speed=1)`. -/
def Book.init (e : Env) (params : List (String × String)) : Option Book := do
  let b ← VideoSynthBase.init e params
  let eng ← e.mkTSR (e.imread "../data/graf1.png") (e.imread "../data/box.png") false 1
  pure { base := b, render := eng, rtime := 0 }

/-- The state written by `Cube.__init__`. -/
structure Cube where
  base : VideoSynthBase
  render : TSREngine
  rtime : Nat

/-- `Cube.__init__`: base constructor, then
`TestSceneRender(cv.imread('../data/pca_test1.jpg'), deformation=True, speed=1)`. -/
def Cube.init (e : Env) (params : List (String × String)) : Option Cube := do
  let b ← VideoSynthBase.init e params
  let eng ← e.mkTSR (e.imread "../data/pca_test1.jpg") none true 1
  pure { base := b, render := eng, rtime := 0 }

/-- A constructed synthetic source. -/
inductive SynthState where
  | base (b : VideoSynthBase)
  | chess (c : Chess)
  | book (b : Book)
  | cube (b : Cube)

/-- A key of the `classes = dict(chess=Chess, book=Book, cube=Cube)` registry,
or the default entry. -/
inductive SynthClass where
  | baseC | chessC | bookC | cubeC
deriving DecidableEq

/-- The `classes` registry. -/
def classes : String → Option SynthClass
  | "chess" => some .chessC
  | "book" => some .bookC
  | "cube" => some .cubeC
  | _ => none

/-- `classes.get(params.get('class', None), VideoSynthBase)`. -/
def classOf (params : List (String × String)) : SynthClass :=
  match dictGet "class" params with
  | none => .baseC
  | some n => (classes n).getD .baseC

/-- `Class = classes.get(...); try: cap = Class(**params) except: pass`. -/
def synthConstruct (e : Env) (params : List (String × String)) : Option SynthState :=
  match classOf params with
  | .baseC => (VideoSynthBase.init e params).map .base
  | .chessC => (VideoSynthBase.init e params).map (fun b => .chess (Chess.init b))
  | .bookC => (Book.init e params).map .book
  | .cubeC => (Cube.init e params).map .cube

/-- A `cv.VideoCapture` handle: whether it opened, and any size request made on it. -/
structure RealCap where
  opened : Bool
  reqSize : Option (Int × Int)

/-- A capture object returned by `create_capture`. -/
inductive Cap where
  | synth (s : SynthState)
  | real (r : RealCap)

/-- `cap.isOpened()`: `VideoSynthBase.isOpened` returns `True`; a real capture
reports the device state. -/
def Cap.isOpened : Cap → Bool
  | .synth _ => true
  | .real r => r.opened

/-- Python `str.isalpha()`. -/
def pyIsAlpha (s : String) : Bool :=
  !s.toList.isEmpty && s.toList.all Char.isAlpha

/-- Lines 182–184: re-merge a drive-letter split
(`len(chunks[0]) == 1 and chunks[0].isalpha()`). -/
def mergeDrive : List String → List String
  | c0 :: c1 :: rest =>
    if c0.length = 1 ∧ pyIsAlpha c0 then (c0 ++ ":" ++ c1) :: rest else c0 :: c1 :: rest
  | chunks => chunks

/-- `source.strip().split(':')` followed by the drive-letter merge. -/
def parseChunks (source : String) : List String :=
  mergeDrive (pySplit ':' (pyStrip source))

/-- The parameter tokens (everything after the kind-or-path token). -/
def paramTokens (source : String) : List String :=
  (parseChunks source).drop 1

/-- `dict(s.split('=') for s in chunks[1:])`: every token must split into exactly
a key and a value, otherwise `dict` raises `ValueError`. -/
def pyDictPairs : List String → Option (List (String × String))
  | [] => some []
  | s :: rest =>
    match pySplit '=' s with
    | [k, v] => (pyDictPairs rest).map (fun ps => (k, v) :: ps)
    | _ => none

/-- Lines 179–189 of `create_capture`: strip, split, drive-letter merge, integer
attempt on the first token, `key=value` parsing of the rest.  `Except.error`
models an uncaught `ValueError`. -/
def parseDescriptor (source : String) :
    Except Unit ((Int ⊕ String) × List (String × String)) :=
  match parseChunks source with
  | [] => .error ()   -- unreachable: a split result is never empty
  | c0 :: rest =>
    let kind : Int ⊕ String :=
      match pyInt c0 with
      | some n => .inl n
      | none => .inr c0
    match pyDictPairs rest with
    | none => .error ()
    | some params => .ok (kind, params)

/-- The body of `create_capture` up to line 201: resolve the descriptor to a capture
attempt, with `none` for Python `cap = None`. -/
def create_capture_once (e : Env) (source : String) : Except Unit (Option Cap) :=
  match parseDescriptor source with
  | .error u => .error u
  | .ok kp =>
    if kp.1 = Sum.inr "synth" then
      .ok ((synthConstruct e kp.2).map .synth)
    else
      -- cap = cv.VideoCapture(source); optional size request
      match dictGet "size" kp.2 with
      | none => .ok (some (.real { opened := e.videoCaptureOpens kp.1, reqSize := none }))
      | some s =>
        match parseSize s with
        | none => .error ()   -- `map(int, ...)` raises out of create_capture
        | some wh => .ok (some (.real { opened := e.videoCaptureOpens kp.1, reqSize := some wh }))

/-- `cap is None or not cap.isOpened()` (line 202). -/
def capBad : Option Cap → Bool
  | none => true
  | some c => !c.isOpened

/-- `create_capture(source, fallback)` (lines 176–206): attempt the descriptor; if the
result is missing or unopened, resolve the fallback with `fallback = None`. -/
def create_capture (e : Env) (source : String) (fallback : Option String) :
    Except Unit (Option Cap) :=
  match create_capture_once e source with
  | .error u => .error u
  | .ok cap =>
    if capBad cap then
      match fallback with
      | some fb => create_capture e fb none
      | none => .ok cap
    else .ok cap
termination_by (match fallback with | none => 0 | some _ => 1)
decreasing_by simp

/-- The `presets` table. -/
def presets : String → Option String
  | "empty" => some "synth:"
  | "lena" => some "synth:bg=../data/lena.jpg:noise=0.1"
  | "chess" => some "synth:class=chess:bg=../data/lena.jpg:noise=0.1:size=640x480"
  | "book" => some "synth:class=book:bg=../data/graf1.png:noise=0.1:size=640x480"
  | "cube" => some "synth:class=cube:bg=../data/pca_test1.jpg:noise=0.0:size=640x480"
  | _ => none

/-- Scalar multiplication of a numpy 3-vector. -/
def vsmul (a : Vec3) (k : ℚ) : Vec3 := (a.1 * k, a.2.1 * k, a.2.2 * k)

/-- Addition of numpy 3-vectors. -/
def vadd (a b : Vec3) : Vec3 := (a.1 + b.1, a.2.1 + b.2.1, a.2.2 + b.2.2)

/-- The camera geometry computed by `Chess.render` (lines 142–148) from the simulated
time `t` it captured: `phi = pi/3 + sin(t*3)*pi/8`,
`ofs = [sin(1.2*t), cos(1.8*t), 0] * sx * 0.2`,
`eye_pos = center + [cos(t)*cos(phi), sin(t)*cos(phi), sin(phi)] * 15.0 + ofs`,
`target_pos = center + ofs`. -/
def chessEyeTarget (e : Env) (grid : Nat × Nat) (t : ℚ) : Vec3 × Vec3 :=
  let sx : ℚ := grid.1
  let sy : ℚ := grid.2
  let center : Vec3 := (1 / 2 * sx, 1 / 2 * sy, 0)
  let phi : ℚ := e.pi / 3 + e.sin (t * 3) * e.pi / 8
  let c := e.cos phi
  let s := e.sin phi
  let ofs : Vec3 := vsmul (vsmul (e.sin (6 / 5 * t), e.cos (9 / 5 * t), 0) sx) (1 / 5)
  let eye_pos := vadd (vadd center (vsmul (e.cos t * c, e.sin t * c, s) 15)) ofs
  let target_pos := vadd center ofs
  (eye_pos, target_pos)

/-- `np.int32` cast (truncation toward zero) of a projected coordinate. -/
def qtrunc (q : ℚ) : Int := q.num.tdiv q.den

/-- Regroup the flat projected-point list into per-quad groups of four
(`img_quads.shape = quads.shape[:2] + (2,)`). -/
def chunk4 {α : Type} : List α → List (List α)
  | a :: b :: c :: d :: rest => [a, b, c, d] :: chunk4 rest
  | _ => []

/-- One `cv.fillConvexPoly(img, np.int32(q*4), color, cv.LINE_AA, shift=2)` call. -/
def fillStep (e : Env) (color : Nat × Nat × Nat) (im : Image) (q : List (ℚ × ℚ)) : Image :=
  { im with px := e.fillConvexPoly im (q.map (fun p => (qtrunc (p.1 * 4), qtrunc (p.2 * 4)))) color 2 }

/-- `Chess.draw_quads` (lines 132–136): project all corners, regroup, fill each quad. -/
def Chess.draw_quads (e : Env) (rvec tvec : Vec3) (K : Mat3) (dist : List ℚ)
    (img : Image) (quads : List (List Vec3)) (color : Nat × Nat × Nat) : Image :=
  let img_quads := e.projectPoints quads.flatten rvec tvec K dist
  (chunk4 img_quads).foldl (fillStep e color) img

/-- `Chess.render` (lines 138–154): capture `t`, advance `self.t` by `1/30`, compute the
camera pose FROM THE CAPTURED (pre-advance) time, store `rvec`/`tvec`, draw both quad
sets. -/
def Chess.render (e : Env) (s : Chess) (dst : Image) : Image × Chess :=
  let t := s.t
  let s1 : Chess := { s with t := s.t + 1 / 30 }
  let et := chessEyeTarget e s.grid_size t
  let Rt := e.lookat et.1 et.2
  let rv := e.mtx2rvec Rt.1
  let s2 : Chess := { s1 with tvec := some Rt.2, rvec := some rv }
  let img1 := Chess.draw_quads e rv Rt.2 s.K s.dist_coef dst s.white_quads (245, 245, 245)
  let img2 := Chess.draw_quads e rv Rt.2 s.K s.dist_coef img1 s.black_quads (10, 10, 10)
  (img2, s2)

/-- The render step as §4.2 of the spec words it (claim C4): the simulated time is
advanced FIRST and the camera geometry is computed from the advanced time.  Written
from the spec's words, only for comparison against `Chess.render`. -/
def chessRenderSpecOrder (e : Env) (s : Chess) (dst : Image) : Image × Chess :=
  let s1 : Chess := { s with t := s.t + 1 / 30 }
  let t := s1.t
  let et := chessEyeTarget e s.grid_size t
  let Rt := e.lookat et.1 et.2
  let rv := e.mtx2rvec Rt.1
  let s2 : Chess := { s1 with tvec := some Rt.2, rvec := some rv }
  let img1 := Chess.draw_quads e rv Rt.2 s.K s.dist_coef dst s.white_quads (245, 245, 245)
  let img2 := Chess.draw_quads e rv Rt.2 s.K s.dist_coef img1 s.black_quads (10, 10, 10)
  (img2, s2)

/-- The fresh frame buffer built at the top of `VideoSynthBase.read`:
`np.zeros((h, w, 3), np.uint8)` when there is no background, else `self.bg.copy()`. -/
def bufOf (s : VideoSynthBase) : Image :=
  match s.bg with
  | none => zeroImage s.frame_size.1 s.frame_size.2
  | some b => b

/-- `VideoSynthBase.read` (lines 66–80): fresh buffer (zeroes or a copy of the stored
background), no-op base `render`, then noise only when `self.noise > 0.0`.  The RNG
counter models the global `cv.randn` stream. -/
def VideoSynthBase.read (e : Env) (s : VideoSynthBase) (rng : Nat) :
    (Bool × Image) × Nat :=
  let buf := bufOf s
  if 0 < s.noise then ((true, noisy e rng (255 * s.noise) buf), rng + 1)
  else ((true, buf), rng)

/-- The inherited `read` as executed on a `Chess` instance: same body, but `render`
is `Chess.render`, which advances the simulated time. -/
def Chess.read (e : Env) (s : Chess) (rng : Nat) : (Bool × Image) × Chess × Nat :=
  let buf := bufOf s.base
  let r := Chess.render e s buf
  if 0 < s.base.noise then ((true, noisy e rng (255 * s.base.noise) r.1), r.2, rng + 1)
  else ((true, r.1), r.2, rng)

/-- `Book.read` (lines 92–96): noise buffer of `self.render.sceneBg.shape`, always
sampled, added to the engine's next frame.  The frame has the ENGINE's size. -/
def Book.read (e : Env) (s : Book) (rng : Nat) : (Bool × Image) × Book × Nat :=
  let frame : Image := ⟨s.render.sceneBg.width, s.render.sceneBg.height, s.render.framePx s.rtime⟩
  ((true, noisy e rng (255 * s.base.noise) frame), { s with rtime := s.rtime + 1 }, rng + 1)

/-- `Cube.read` (lines 103–107): identical shape to `Book.read`. -/
def Cube.read (e : Env) (s : Cube) (rng : Nat) : (Bool × Image) × Cube × Nat :=
  let frame : Image := ⟨s.render.sceneBg.width, s.render.sceneBg.height, s.render.framePx s.rtime⟩
  ((true, noisy e rng (255 * s.base.noise) frame), { s with rtime := s.rtime + 1 }, rng + 1)

/-- `read()` on any synthetic source, threading the mutable state and RNG counter. -/
def synthRead (e : Env) : SynthState × Nat → (Bool × Image) × SynthState × Nat
  | (.base b, rng) => let r := VideoSynthBase.read e b rng; (r.1, .base b, r.2)
  | (.chess c, rng) => let r := Chess.read e c rng; (r.1, .chess r.2.1, r.2.2)
  | (.book b, rng) => let r := Book.read e b rng; (r.1, .book r.2.1, r.2.2)
  | (.cube b, rng) => let r := Cube.read e b rng; (r.1, .cube r.2.1, r.2.2)

/-- The state after one `read()`. -/
def synthStep (e : Env) (p : SynthState × Nat) : SynthState × Nat := (synthRead e p).2

/-- The state after `n` `read()` calls. -/
def synthStateN (e : Env) (p : SynthState × Nat) : Nat → SynthState × Nat
  | 0 => p
  | n + 1 => synthStep e (synthStateN e p n)

/-- The `(ok, frame)` result of the `n`-th `read()` call (0-indexed). -/
def synthResultN (e : Env) (p : SynthState × Nat) (n : Nat) : Bool × Image :=
  (synthRead e (synthStateN e p n)).1

/-- `isOpened()` of a synthetic source. -/
def synthIsOpened (_ : SynthState) : Bool := true

/-- The chess state after `n` bare `render` calls on a fixed destination buffer. -/
def chessRenderIter (e : Env) (dst : Image) (c : Chess) : Nat → Chess
  | 0 => c
  | n + 1 => (Chess.render e (chessRenderIter e dst c n) dst).2

/-- Unwrap the factory result (`Except`) into the returned capture object. -/
def capOf : Except Unit (Option Cap) → Option Cap
  | .ok c => c
  | .error _ => none

/-- Project a synthetic source out of a returned capture. -/
def synthOf : Option Cap → Option SynthState
  | some (.synth s) => some s
  | _ => none

/-- The `frame_size` configuration field of a synthetic source. -/
def synthFrameSize : SynthState → Nat × Nat
  | .base b => b.frame_size
  | .chess c => c.base.frame_size
  | .book b => b.base.frame_size
  | .cube b => b.base.frame_size

/-- Dimensions of the frame produced by the first `read()` on a resolved source. -/
def firstFrameDims (e : Env) : Option SynthState → Option (Nat × Nat)
  | some s => some ((synthResultN e (s, 0) 0).2.width, (synthResultN e (s, 0) 0).2.height)
  | none => none

/-- A concrete 800×640 image, used to instantiate environments. -/
def img800 : Image := ⟨800, 640, fun _ _ _ => 7⟩

/-- A concrete environment in which no file loads and no capture device opens;
numpy trigonometry is instantiated by arbitrary total functions, and `lookat`
returns the eye position as the translation vector so that poses are observable. -/
def envA : Env :=
  { imread := fun _ => none
    resizePx := fun _ _ _ _ _ _ => 0
    gauss := fun _ _ _ _ => 0
    videoCaptureOpens := fun _ => false
    sin := id
    cos := id
    pi := 0
    lookat := fun eye _ => ([[1, 0, 0], [0, 1, 0], [0, 0, 1]], eye)
    mtx2rvec := fun _ => (0, 0, 0)
    projectPoints := fun _ _ _ _ _ => []
    fillConvexPoly := fun im _ _ _ => im.px
    mkTSR := fun _ _ _ _ => none }

/-- A concrete environment in which every image loads as `img800` and the
`TestSceneRender` engine echoes its background. -/
def envB : Env :=
  { envA with
    imread := fun _ => some img800
    mkTSR := fun bg _ _ _ => bg.map (fun i => ⟨i, fun _ x y c => i.px x y c⟩) }

/-- Rebuilding a string from its character list is the identity. -/
theorem stringMkToList (s : String) : (⟨s.toList⟩ : String) = s := by
  cases s
  rfl

/-- A split on a separator that does not occur returns the whole list. -/
theorem pySplitAux_no_sep (c : Char) (l : List Char) (h : c ∉ l) :
    pySplitAux c l = [l] := by
  induction l with
  | nil => rfl
  | cons x xs ih =>
    have hx : ¬x = c := by
      intro hc
      exact h (hc ▸ List.mem_cons_self x xs)
    have hxs : c ∉ xs := fun hc => h (List.mem_cons_of_mem _ hc)
    simp only [pySplitAux, ih hxs]
    rw [if_neg hx]

/-- `str.split(sep)` on a string not containing the separator is the singleton. -/
theorem pySplit_no_sep (c : Char) (s : String) (h : c ∉ s.toList) :
    pySplit c s = [s] := by
  unfold pySplit
  rw [pySplitAux_no_sep c s.toList h]
  simp [stringMkToList]

/-- `dict(s.split('=') for s in tokens)` raises whenever some token has no `=`. -/
theorem pyDictPairs_none (tok : String) (l : List String)
    (hmem : tok ∈ l) (heq : '=' ∉ tok.toList) : pyDictPairs l = none := by
  induction l with
  | nil => cases hmem
  | cons s rest ih =>
    rcases List.mem_cons.mp hmem with h | h
    · subst h
      have hs : pySplit '=' tok = [tok] := pySplit_no_sep '=' tok heq
      simp only [pyDictPairs]
      split
      · next k v hkv =>
        rw [hs] at hkv
        simp at hkv
      · rfl
    · simp only [pyDictPairs]
      split
      · next k v hkv => rw [ih h]; rfl
      · rfl

/-- With no fallback, `create_capture` is exactly the single resolution attempt:
it returns the (possibly missing or unopened) result without recursing. -/
theorem create_capture_none_eq (e : Env) (s : String) :
    create_capture e s none = create_capture_once e s := by
  unfold create_capture
  cases h : create_capture_once e s with
  | error u => rfl
  | ok cap =>
    dsimp only
    split <;> rfl

/-- A malformed parameter token makes the descriptor parse raise. -/
theorem parseDescriptor_error_of_bad_param (desc tok : String)
    (hmem : tok ∈ paramTokens desc) (heq : '=' ∉ tok.toList) :
    parseDescriptor desc = .error () := by
  unfold parseDescriptor
  cases hc : parseChunks desc with
  | nil => rfl
  | cons c0 rest =>
    have hrest : tok ∈ rest := by
      have : paramTokens desc = rest := by
        unfold paramTokens
        rw [hc]
        rfl
      rwa [this] at hmem
    dsimp only
    rw [pyDictPairs_none tok rest hrest heq]

/-- The camera pose stored by one `Chess.render` call: `common.lookat` applied to the
eye/target geometry at the CAPTURED (pre-advance) simulated time. -/
def chessPose (e : Env) (c : Chess) : Mat3 × Vec3 :=
  e.lookat (chessEyeTarget e c.grid_size c.t).1 (chessEyeTarget e c.grid_size c.t).2

/-- The post-state of one `Chess.render` call: only `t`, `rvec` and `tvec` change. -/
theorem chess_render_state (e : Env) (c : Chess) (dst : Image) :
    (Chess.render e c dst).2 =
      { c with t := c.t + 1 / 30
               tvec := some (chessPose e c).2
               rvec := some (e.mtx2rvec (chessPose e c).1) } := rfl

/-- The frame of one `Chess.render` call, explicitly. -/
theorem chess_render_fst (e : Env) (c : Chess) (dst : Image) :
    (Chess.render e c dst).1 =
      Chess.draw_quads e (e.mtx2rvec (chessPose e c).1) (chessPose e c).2 c.K c.dist_coef
        (Chess.draw_quads e (e.mtx2rvec (chessPose e c).1) (chessPose e c).2 c.K c.dist_coef
          dst c.white_quads (245, 245, 245))
        c.black_quads (10, 10, 10) := rfl

/-- Filling polygons never changes the buffer dimensions. -/
theorem foldl_fillStep_dims (e : Env) (col : Nat × Nat × Nat)
    (l : List (List (ℚ × ℚ))) (img : Image) :
    (l.foldl (fillStep e col) img).width = img.width ∧
    (l.foldl (fillStep e col) img).height = img.height := by
  induction l generalizing img with
  | nil => exact ⟨rfl, rfl⟩
  | cons q l ih => exact ih (fillStep e col img q)

/-- `draw_quads` draws in place: the buffer dimensions are unchanged. -/
theorem draw_quads_dims (e : Env) (rv tv : Vec3) (K : Mat3) (d : List ℚ)
    (img : Image) (quads : List (List Vec3)) (col : Nat × Nat × Nat) :
    (Chess.draw_quads e rv tv K d img quads col).width = img.width ∧
    (Chess.draw_quads e rv tv K d img quads col).height = img.height :=
  foldl_fillStep_dims e col _ img

/-- `Chess.render` draws in place: the frame keeps the destination's dimensions. -/
theorem chess_render_dims (e : Env) (c : Chess) (dst : Image) :
    (Chess.render e c dst).1.width = dst.width ∧
    (Chess.render e c dst).1.height = dst.height := by
  rw [chess_render_fst]
  refine ⟨?_, ?_⟩
  · rw [(draw_quads_dims _ _ _ _ _ _ _ _).1, (draw_quads_dims _ _ _ _ _ _ _ _).1]
  · rw [(draw_quads_dims _ _ _ _ _ _ _ _).2, (draw_quads_dims _ _ _ _ _ _ _ _).2]

/-- The post-state of the inherited `read` on a `Chess` instance. -/
theorem chess_read_state (e : Env) (c : Chess) (rng : Nat) :
    (Chess.read e c rng).2.1 =
      { c with t := c.t + 1 / 30
               tvec := some (chessPose e c).2
               rvec := some (e.mtx2rvec (chessPose e c).1) } := by
  unfold Chess.read
  dsimp only
  split <;> rfl

/-- The inherited `read` on a `Chess` instance always reports success. -/
theorem chess_read_ok (e : Env) (c : Chess) (rng : Nat) :
    (Chess.read e c rng).1.1 = true := by
  unfold Chess.read
  dsimp only
  split <;> rfl

/-- The frame returned by the inherited `read` on a `Chess` instance has the
dimensions of the fresh buffer. -/
theorem chess_read_dims (e : Env) (c : Chess) (rng : Nat) :
    (Chess.read e c rng).1.2.width = (bufOf c.base).width ∧
    (Chess.read e c rng).1.2.height = (bufOf c.base).height := by
  unfold Chess.read
  dsimp only
  split
  · exact ⟨(chess_render_dims e c (bufOf c.base)).1, (chess_render_dims e c (bufOf c.base)).2⟩
  · exact ⟨(chess_render_dims e c (bufOf c.base)).1, (chess_render_dims e c (bufOf c.base)).2⟩

/-- `read()` on any synthetic source reports `ok = True`. -/
theorem synthRead_ok (e : Env) (p : SynthState × Nat) : (synthRead e p).1.1 = true := by
  rcases p with ⟨s, r⟩
  cases s with
  | base b =>
    dsimp only [synthRead]
    unfold VideoSynthBase.read
    dsimp only
    split <;> rfl
  | chess c =>
    dsimp only [synthRead]
    exact chess_read_ok e c r
  | book b => rfl
  | cube b => rfl

/-- `read()` on a base generator never changes the generator state. -/
theorem synthStateN_base (e : Env) (b : VideoSynthBase) (rng n : Nat) :
    (synthStateN e (.base b, rng) n).1 = .base b := by
  induction n with
  | zero => rfl
  | succ n ih =>
    unfold synthStateN
    rcases hp : synthStateN e (.base b, rng) n with ⟨s, r⟩
    rw [hp] at ih
    dsimp only at ih
    subst ih
    rfl

/-- Iterated `read()` on a chess generator stays a chess generator and never touches
the configuration (base state, grids, intrinsics) nor the grid size. -/
theorem synthStateN_chess (e : Env) (c : Chess) (rng n : Nat) :
    ∃ c' rng', synthStateN e (.chess c, rng) n = (.chess c', rng') ∧
      c'.base = c.base ∧ c'.grid_size = c.grid_size := by
  induction n with
  | zero => exact ⟨c, rng, rfl, rfl, rfl⟩
  | succ n ih =>
    obtain ⟨c', rng', hp, hb, hg⟩ := ih
    refine ⟨(Chess.read e c' rng').2.1, (Chess.read e c' rng').2.2, ?_, ?_, ?_⟩
    · unfold synthStateN
      rw [hp]
      rfl
    · rw [chess_read_state]
      exact hb
    · rw [chess_read_state]
      exact hg

/-- When the first attempt yields a missing-or-unopened capture, `create_capture`
with a fallback equals `create_capture` on the fallback with `fallback = None`. -/
theorem create_capture_some_eq (e : Env) (src fb : String) (cap : Option Cap)
    (h : create_capture_once e src = .ok cap) (hbad : capBad cap = true) :
    create_capture e src (some fb) = create_capture e fb none := by
  conv_lhs => rw [create_capture.eq_def]
  rw [h]
  dsimp only
  rw [hbad]
  rfl

/-- C1: if the source resolved from a descriptor is missing or not opened,
`create_capture` resolves the fallback exactly once with `fallback = None`, and a
no-fallback resolution is exactly the single attempt — it returns the attempt's
(possibly unopened or missing) result without recursing again. -/
theorem c1_fallback_single_hop (e : Env) (src fb : String) (cap : Option Cap)
    (h : create_capture_once e src = .ok cap) (hbad : capBad cap = true) :
    create_capture e src (some fb) = create_capture e fb none ∧
    (∀ s, create_capture e s none = create_capture_once e s) :=
  ⟨create_capture_some_eq e src fb cap h hbad, fun s => create_capture_none_eq e s⟩

/-- C1 witness: device descriptor "9" fails to open in `envA`, and the fallback "7"
also fails; resolution still terminates with the unopened result. -/
theorem c1_fallback_single_hop_witness :
    create_capture_once envA "9" = .ok (some (.real ⟨false, none⟩)) ∧
    capBad (some (.real ⟨false, none⟩)) = true ∧
    (create_capture envA "9" (some "7") = create_capture envA "7" none ∧
     (∀ s, create_capture envA s none = create_capture_once envA s)) :=
  ⟨rfl, rfl, c1_fallback_single_hop envA "9" "7" (some (.real ⟨false, none⟩)) rfl rfl⟩

/-- C5: with noise level 0 and the base (no-op) render step, noise injection is the
identity: every `read()` returns the same bit-identical frame — the stored background
copy, or an all-zero buffer of the frame size when no background exists. -/
theorem c5_zero_noise_identity (e : Env) (b : VideoSynthBase) (h : b.noise = 0) :
    (∀ rng n rng2 m,
      synthResultN e (.base b, rng) n = synthResultN e (.base b, rng2) m) ∧
    (∀ rng n, synthResultN e (.base b, rng) n = (true, bufOf b)) := by
  have key : ∀ rng n, synthResultN e (.base b, rng) n = (true, bufOf b) := by
    intro rng n
    unfold synthResultN
    rcases hp : synthStateN e (.base b, rng) n with ⟨s, r⟩
    have hs := synthStateN_base e b rng n
    rw [hp] at hs
    dsimp only at hs
    subst hs
    show (synthRead e (.base b, r)).1 = _
    dsimp only [synthRead]
    unfold VideoSynthBase.read
    rw [h]
    norm_num
  exact ⟨fun rng n rng2 m => (key rng n).trans (key rng2 m).symm, key⟩

/-- C5 witness: the background-free zero-noise base generator. -/
theorem c5_zero_noise_identity_witness :
    (⟨none, (640, 480), 0⟩ : VideoSynthBase).noise = 0 ∧
    ((∀ rng n rng2 m,
        synthResultN envA (.base ⟨none, (640, 480), 0⟩, rng) n =
          synthResultN envA (.base ⟨none, (640, 480), 0⟩, rng2) m) ∧
     (∀ rng n, synthResultN envA (.base ⟨none, (640, 480), 0⟩, rng) n =
        (true, bufOf ⟨none, (640, 480), 0⟩))) :=
  ⟨rfl, c5_zero_noise_identity envA ⟨none, (640, 480), 0⟩ rfl⟩

/-- C6: on every synthetic source, every `read()` in any call sequence returns
`ok = true`, and `isOpened()` always returns true. -/
theorem c6_read_always_ok (e : Env) (s : SynthState) (rng n : Nat) :
    (synthResultN e (s, rng) n).1 = true ∧
    synthIsOpened s = true ∧
    Cap.isOpened (.synth s) = true :=
  ⟨synthRead_ok e (synthStateN e (s, rng) n), rfl, rfl⟩

/-- C7: a descriptor whose first colon-token is a single alphabetic character with at
least one further token is re-merged into one path token; in particular
"c:path/to/video.mp4" parses to a single path token, not kind "c" with a parameter. -/
theorem c7_drive_letter_merge (desc c0 c1 : String) (rest : List String)
    (hsplit : pySplit ':' (pyStrip desc) = c0 :: c1 :: rest)
    (hlen : c0.length = 1) (halpha : pyIsAlpha c0 = true) :
    parseChunks desc = (c0 ++ ":" ++ c1) :: rest ∧
    parseChunks "c:path/to/video.mp4" = ["c:path/to/video.mp4"] ∧
    parseDescriptor "c:path/to/video.mp4" =
      .ok (Sum.inr "c:path/to/video.mp4", []) := by
  refine ⟨?_, rfl, rfl⟩
  unfold parseChunks
  rw [hsplit]
  unfold mergeDrive
  dsimp only
  rw [if_pos ⟨hlen, halpha⟩]

/-- C7 witness: the merge fires on the concrete descriptor "c:x". -/
theorem c7_drive_letter_merge_witness :
    pySplit ':' (pyStrip "c:x") = ["c", "x"] ∧
    ("c" : String).length = 1 ∧ pyIsAlpha "c" = true ∧
    (parseChunks "c:x" = ["c:x"] ∧
     parseChunks "c:path/to/video.mp4" = ["c:path/to/video.mp4"] ∧
     parseDescriptor "c:path/to/video.mp4" =
       .ok (Sum.inr "c:path/to/video.mp4", [])) :=
  ⟨rfl, rfl, rfl, c7_drive_letter_merge "c:x" "c" "x" [] rfl rfl rfl⟩

/-- C8: a parameter token without '=' makes `create_capture` raise for the whole
descriptor (no source is returned), while an unknown class name merely degrades the
synthetic construction to the base generator. -/
theorem c8_malformed_param_vs_unknown_class :
    (∀ (e : Env) (desc : String) (fbo : Option String) (tok : String),
        tok ∈ paramTokens desc → '=' ∉ tok.toList →
        create_capture e desc fbo = .error ()) ∧
    (∀ (e : Env) (params : List (String × String)) (name : String),
        dictGet "class" params = some name →
        name ≠ "chess" → name ≠ "book" → name ≠ "cube" →
        synthConstruct e params = (VideoSynthBase.init e params).map SynthState.base) ∧
    (∀ e : Env, create_capture e "synth:class=zzz" none =
        .ok (some (.synth (.base ⟨none, (640, 480), 0⟩)))) := by
  refine ⟨?_, ?_, ?_⟩
  · intro e desc fbo tok hmem hne
    have honce : create_capture_once e desc = .error () := by
      unfold create_capture_once
      rw [parseDescriptor_error_of_bad_param desc tok hmem hne]
    conv_lhs => rw [create_capture.eq_def]
    rw [honce]
  · intro e params name hname h1 h2 h3
    have hcl : classes name = none := by
      unfold classes
      split <;> simp_all
    have hco : classOf params = .baseC := by
      unfold classOf
      rw [hname]
      dsimp only
      rw [hcl]
      rfl
    unfold synthConstruct
    rw [hco]
  · intro e
    conv_lhs => rw [create_capture.eq_def]
    rfl

/-- C8 witness: "synth:noise" has the '='-free token "noise" and raises; the unknown
class "zzz" resolves to the base generator. -/
theorem c8_malformed_param_vs_unknown_class_witness :
    ("noise" ∈ paramTokens "synth:noise") ∧ '=' ∉ ("noise" : String).toList ∧
    create_capture envA "synth:noise" none = .error () ∧
    (dictGet "class" [("class", "zzz")] = some "zzz") ∧
    synthConstruct envA [("class", "zzz")] =
      (VideoSynthBase.init envA [("class", "zzz")]).map SynthState.base :=
  ⟨by decide, by decide,
   c8_malformed_param_vs_unknown_class.1 envA "synth:noise" none "noise"
     (by decide) (by decide),
   rfl,
   c8_malformed_param_vs_unknown_class.2.1 envA [("class", "zzz")] "zzz" rfl
     (by decide) (by decide) (by decide)⟩

/-- C10: any descriptor whose parameter section contains an empty token — in
particular the 'empty' preset's canonical descriptor "synth:" — makes
`create_capture` raise during key=value parameter parsing instead of returning a
source. -/
theorem c10_empty_preset_unusable :
    (∀ (e : Env) (desc : String) (fbo : Option String),
        "" ∈ paramTokens desc → create_capture e desc fbo = .error ()) ∧
    presets "empty" = some "synth:" ∧
    (∀ (e : Env) (fbo : Option String), create_capture e "synth:" fbo = .error ()) := by
  have key : ∀ (e : Env) (desc : String) (fbo : Option String),
      "" ∈ paramTokens desc → create_capture e desc fbo = .error () := by
    intro e desc fbo hmem
    have honce : create_capture_once e desc = .error () := by
      unfold create_capture_once
      rw [parseDescriptor_error_of_bad_param desc "" hmem (by decide)]
    conv_lhs => rw [create_capture.eq_def]
    rw [honce]
  exact ⟨key, rfl, fun e fbo => key e "synth:" fbo (by decide)⟩

/-- C10 witness: the 'empty' preset's descriptor itself. -/
theorem c10_empty_preset_unusable_witness :
    ("" ∈ paramTokens "synth:") ∧ create_capture envA "synth:" none = .error () :=
  ⟨by decide, c10_empty_preset_unusable.1 envA "synth:" none (by decide)⟩

/-- C9: a `read`/`render` call leaves all configuration unchanged (background,
frame size, quad grids, intrinsic matrix, distortion coefficients): the base read
returns its state untouched; the chess read changes only the simulated time (plus the
pose scratch fields `rvec`/`tvec`, which are recomputed from the time alone before any
use, so the read's outcome is independent of their incoming values); the book/cube
reads only advance the engine's frame counter.  The returned frame is built in a
fresh buffer: the stored background survives every call unchanged. -/
theorem c9_read_state_effect (e : Env) (rng : Nat) :
    (∀ b : VideoSynthBase, (synthRead e (.base b, rng)).2.1 = .base b) ∧
    (∀ c : Chess,
        (synthRead e (.chess c, rng)).2.1 =
          .chess { c with t := c.t + 1 / 30
                          tvec := some (chessPose e c).2
                          rvec := some (e.mtx2rvec (chessPose e c).1) }) ∧
    (∀ (c : Chess) (r v : Option Vec3),
        synthRead e (.chess { c with rvec := r, tvec := v }, rng) =
          synthRead e (.chess c, rng)) ∧
    (∀ b : Book, (synthRead e (.book b, rng)).2.1 = .book { b with rtime := b.rtime + 1 }) ∧
    (∀ b : Cube, (synthRead e (.cube b, rng)).2.1 = .cube { b with rtime := b.rtime + 1 }) := by
  refine ⟨fun b => rfl, fun c => ?_, fun c r v => rfl, fun b => rfl, fun b => rfl⟩
  dsimp only [synthRead]
  rw [chess_read_state]

/-- C4 (amended): the chess simulated time starts at 0 and advances by 1/30 per render
call, but the camera geometry of each call is computed from the CAPTURED, pre-advance
time: after `n` calls `t = n/30`, and the `(n+1)`-st call poses the camera at `n/30`
(so the `k`-th frame uses `t = (k-1)/30`, not `k/30`).  The geometry formulas are the
spec's: `phi = pi/3 + sin(3 t) pi/8`, `ofs = (sin(1.2 t), cos(1.8 t), 0) * 0.2 sx`,
`eye = center + (cos t cos phi, sin t cos phi, sin phi) * 15 + ofs`,
`target = center + ofs`. -/
theorem c4_chess_time_advance (e : Env) (c : Chess) (dst : Image)
    (b : VideoSynthBase) (n : Nat) :
    ((Chess.render e c dst).2.t = c.t + 1 / 30) ∧
    ((Chess.render e c dst).2.tvec = some (chessPose e c).2 ∧
     (Chess.render e c dst).2.rvec = some (e.mtx2rvec (chessPose e c).1)) ∧
    (chessPose e c =
      e.lookat (chessEyeTarget e c.grid_size c.t).1 (chessEyeTarget e c.grid_size c.t).2) ∧
    (∀ (g : Nat × Nat) (τ : ℚ),
      chessEyeTarget e g τ =
        (vadd (vadd (1 / 2 * (g.1 : ℚ), 1 / 2 * (g.2 : ℚ), 0)
            (vsmul (e.cos τ * e.cos (e.pi / 3 + e.sin (τ * 3) * e.pi / 8),
                    e.sin τ * e.cos (e.pi / 3 + e.sin (τ * 3) * e.pi / 8),
                    e.sin (e.pi / 3 + e.sin (τ * 3) * e.pi / 8)) 15))
          (vsmul (vsmul (e.sin (6 / 5 * τ), e.cos (9 / 5 * τ), 0) (g.1 : ℚ)) (1 / 5)),
         vadd (1 / 2 * (g.1 : ℚ), 1 / 2 * (g.2 : ℚ), 0)
           (vsmul (vsmul (e.sin (6 / 5 * τ), e.cos (9 / 5 * τ), 0) (g.1 : ℚ)) (1 / 5)))) ∧
    ((Chess.init b).t = 0) ∧
    ((chessRenderIter e dst (Chess.init b) n).t = (n : ℚ) / 30) ∧
    ((chessRenderIter e dst (Chess.init b) (n + 1)).tvec =
      some (e.lookat (chessEyeTarget e (10, 7) ((n : ℚ) / 30)).1
                     (chessEyeTarget e (10, 7) ((n : ℚ) / 30)).2).2) := by
  have hgrid : ∀ k, (chessRenderIter e dst (Chess.init b) k).grid_size = (10, 7) := by
    intro k
    induction k with
    | zero => rfl
    | succ k ih =>
      show ((Chess.render e (chessRenderIter e dst (Chess.init b) k) dst).2).grid_size = _
      rw [chess_render_state]
      exact ih
  have ht : ∀ k, (chessRenderIter e dst (Chess.init b) k).t = (k : ℚ) / 30 := by
    intro k
    induction k with
    | zero => simp [chessRenderIter, Chess.init]
    | succ k ih =>
      show ((Chess.render e (chessRenderIter e dst (Chess.init b) k) dst).2).t = _
      rw [chess_render_state]
      dsimp only
      rw [ih]
      push_cast
      ring
  refine ⟨?_, ⟨?_, ?_⟩, rfl, fun g τ => rfl, rfl, ht n, ?_⟩
  · rw [chess_render_state]
  · rw [chess_render_state]
  · rw [chess_render_state]
  · show ((Chess.render e (chessRenderIter e dst (Chess.init b) n) dst).2).tvec = _
    rw [chess_render_state]
    dsimp only
    unfold chessPose
    rw [hgrid n, ht n]

/-- A concrete chess instance (no background, default frame size, zero noise). -/
def cexChess : Chess := Chess.init ⟨none, (640, 480), 0⟩

/-- C4 counterexample: in the concrete environment `envA`, the pose stored by the
first render call (computed at the pre-advance time 0) differs from the pose the
spec's advance-first ordering would store (computed at 1/30): the claim's "the n-th
frame is rendered using t = n/30" is false at n = 1. -/
theorem c4_cex_pre_advance_time :
    (Chess.render envA cexChess (zeroImage 640 480)).2.tvec ≠
      (chessRenderSpecOrder envA cexChess (zeroImage 640 480)).2.tvec := by
  have h1 : (Chess.render envA cexChess (zeroImage 640 480)).2.tvec =
      some ((5 : ℚ), (7 / 2 : ℚ), (0 : ℚ)) := by
    rw [chess_render_state]
    show some (chessPose envA cexChess).2 = _
    norm_num [chessPose, chessEyeTarget, cexChess, Chess.init, envA, vadd, vsmul]
  have h2 : (chessRenderSpecOrder envA cexChess (zeroImage 640 480)).2.tvec =
      some ((127 / 25 : ℚ), (181 / 50 : ℚ), (0 : ℚ)) := by
    show some (envA.lookat
        (chessEyeTarget envA cexChess.grid_size (cexChess.t + 1 / 30)).1
        (chessEyeTarget envA cexChess.grid_size (cexChess.t + 1 / 30)).2).2 = _
    norm_num [chessEyeTarget, cexChess, Chess.init, envA, vadd, vsmul]
  rw [h1, h2]
  intro hc
  rw [Option.some_inj] at hc
  have := congrArg Prod.fst hc
  norm_num at this

/-- Evaluation of `VideoSynthBase.__init__` when a background loads, a well-formed
positive size override is present, and the noise parameter parses: the background is
resized to the declared size and `frame_size` is set to it. -/
theorem init_bg_size (e : Env) (params : List (String × String)) (p sz : String)
    (img : Image) (W H : Int) (q : ℚ)
    (hbg : dictGet "bg" params = some p) (him : e.imread p = some img)
    (hsz : dictGet "size" params = some sz) (hps : parseSize sz = some (W, H))
    (hW : 0 < W) (hH : 0 < H)
    (hn : (match dictGet "noise" params with
           | none => some (0 : ℚ)
           | some s => pyFloat s) = some q) :
    VideoSynthBase.init e params =
      some ⟨some (resizeImg e img W.toNat H.toNat), (W.toNat, H.toNat), q⟩ := by
  unfold VideoSynthBase.init
  rw [hbg]
  dsimp only
  rw [him]
  dsimp only
  rw [hsz]
  dsimp only
  rw [hps]
  dsimp only
  rw [if_pos ⟨hW, hH⟩]
  dsimp only
  rw [hn]

/-- The frame of any `read()` on a base generator has the fresh buffer's size. -/
theorem base_read_dims (e : Env) (b : VideoSynthBase) (rng : Nat) :
    (VideoSynthBase.read e b rng).1.2.width = (bufOf b).width ∧
    (VideoSynthBase.read e b rng).1.2.height = (bufOf b).height := by
  unfold VideoSynthBase.read
  dsimp only
  split <;> exact ⟨rfl, rfl⟩

/-- Every frame of the base read stream has the fresh buffer's size. -/
theorem base_stream_dims (e : Env) (b : VideoSynthBase) (rng n : Nat) :
    (synthResultN e (.base b, rng) n).2.width = (bufOf b).width ∧
    (synthResultN e (.base b, rng) n).2.height = (bufOf b).height := by
  unfold synthResultN
  have hs := synthStateN_base e b rng n
  rcases hp : synthStateN e (.base b, rng) n with ⟨s, r⟩
  rw [hp] at hs
  dsimp only at hs
  subst hs
  dsimp only [synthRead]
  exact base_read_dims e b r

/-- Every frame of the chess read stream has the fresh buffer's size. -/
theorem chess_stream_dims (e : Env) (c : Chess) (rng n : Nat) :
    (synthResultN e (.chess c, rng) n).2.width = (bufOf c.base).width ∧
    (synthResultN e (.chess c, rng) n).2.height = (bufOf c.base).height := by
  obtain ⟨c', rng', hp, hb, hg⟩ := synthStateN_chess e c rng n
  unfold synthResultN
  rw [hp]
  dsimp only [synthRead]
  constructor
  · rw [(chess_read_dims e c' rng').1, hb]
  · rw [(chess_read_dims e c' rng').2, hb]

/-- C2 counterexample: resolving the claim's exact descriptor with no fallback
returns NO source at all: with no `bg` parameter, the `size` override reaches
`cv.resize(None, ...)`, the constructor raises, `create_capture` swallows the
exception (`cap = None`) and, with no fallback, returns Python `None`. -/
theorem c2_cex_size_without_bg :
    create_capture envA "synth:class=chess:size=320x240:noise=0.1" none =
      .ok none ∧
    synthOf (capOf (create_capture envA
      "synth:class=chess:size=320x240:noise=0.1" none)) = none := by
  have h : create_capture envA "synth:class=chess:size=320x240:noise=0.1" none =
      .ok none := by
    conv_lhs => rw [create_capture.eq_def]
    rfl
  exact ⟨h, by rw [h]; rfl⟩

/-- C2 (amended): the claim's descriptor yields no source (previous theorem); with a
loadable background parameter added, resolution does yield an opened chess source
with `frame_size = (320, 240)` whose every `read()` — in particular the first 200 —
returns `ok = true` and a 320×240 frame. -/
theorem c2_amended_chess_with_bg (e : Env) (img : Image)
    (h : e.imread "../data/lena.jpg" = some img) :
    ∃ st : Chess,
      create_capture e
          "synth:class=chess:bg=../data/lena.jpg:size=320x240:noise=0.1" none =
        .ok (some (.synth (.chess st))) ∧
      Cap.isOpened (.synth (.chess st)) = true ∧
      st.base.frame_size = (320, 240) ∧
      (∀ rng n, (synthResultN e (.chess st, rng) n).1 = true ∧
        (synthResultN e (.chess st, rng) n).2.width = 320 ∧
        (synthResultN e (.chess st, rng) n).2.height = 240) := by
  have hq : pyFloat "0.1" = some ((1 : ℚ) / 10) := by
    rw [show pyFloat "0.1" = some (((0 : ℕ) : ℚ) + ((1 : ℕ) : ℚ) / 10 ^ (1 : ℕ)) from rfl]
    norm_num
  have h0 : (match dictGet "noise"
      [("class", "chess"), ("bg", "../data/lena.jpg"), ("size", "320x240"),
       ("noise", "0.1")] with
      | none => some (0 : ℚ)
      | some s => pyFloat s) = pyFloat "0.1" := rfl
  have hinit : VideoSynthBase.init e
      [("class", "chess"), ("bg", "../data/lena.jpg"), ("size", "320x240"),
       ("noise", "0.1")] =
      some ⟨some (resizeImg e img 320 240), (320, 240), 1 / 10⟩ :=
    init_bg_size e _ "../data/lena.jpg" "320x240" img 320 240 (1 / 10)
      rfl h rfl rfl (by norm_num) (by norm_num) (h0.trans hq)
  have honce : create_capture_once e
      "synth:class=chess:bg=../data/lena.jpg:size=320x240:noise=0.1" =
      .ok (some (.synth (.chess (Chess.init
        ⟨some (resizeImg e img 320 240), (320, 240), 1 / 10⟩)))) := by
    unfold create_capture_once
    rw [show parseDescriptor
        "synth:class=chess:bg=../data/lena.jpg:size=320x240:noise=0.1" =
        .ok (Sum.inr "synth",
          [("class", "chess"), ("bg", "../data/lena.jpg"), ("size", "320x240"),
           ("noise", "0.1")]) from rfl]
    dsimp only
    rw [if_pos rfl]
    unfold synthConstruct
    rw [show classOf
        [("class", "chess"), ("bg", "../data/lena.jpg"), ("size", "320x240"),
         ("noise", "0.1")] = .chessC from rfl]
    dsimp only
    rw [hinit]
    rfl
  refine ⟨Chess.init ⟨some (resizeImg e img 320 240), (320, 240), 1 / 10⟩,
    ?_, rfl, rfl, ?_⟩
  · conv_lhs => rw [create_capture.eq_def]
    rw [honce]
    rfl
  · intro rng n
    refine ⟨synthRead_ok e _, ?_, ?_⟩
    · exact (chess_stream_dims e _ rng n).1
    · exact (chess_stream_dims e _ rng n).2

/-- C2 witness: in the concrete environment `envB` the background loads as `img800`. -/
theorem c2_amended_chess_with_bg_witness :
    envB.imread "../data/lena.jpg" = some img800 ∧
    (∃ st : Chess,
      create_capture envB
          "synth:class=chess:bg=../data/lena.jpg:size=320x240:noise=0.1" none =
        .ok (some (.synth (.chess st))) ∧
      Cap.isOpened (.synth (.chess st)) = true ∧
      st.base.frame_size = (320, 240) ∧
      (∀ rng n, (synthResultN envB (.chess st, rng) n).1 = true ∧
        (synthResultN envB (.chess st, rng) n).2.width = 320 ∧
        (synthResultN envB (.chess st, rng) n).2.height = 240)) :=
  ⟨rfl, c2_amended_chess_with_bg envB img800 rfl⟩

/-- C3 counterexample: a Book generator constructed with `size=320x240` (and a
loadable background) records `frame_size = (320, 240)`, but its `read()` returns
frames of the injected engine's size — here 800×640 — because `Book.read` builds the
frame from `self.render.sceneBg`/`getNextFrame()` and never consults `frame_size`. -/
theorem c3_cex_book_ignores_frame_size :
    Option.map synthFrameSize (synthOf (capOf (create_capture envB
      "synth:class=book:bg=g:size=320x240" none))) = some (320, 240) ∧
    firstFrameDims envB (synthOf (capOf (create_capture envB
      "synth:class=book:bg=g:size=320x240" none))) = some (800, 640) ∧
    ¬(((800 : Nat), (640 : Nat)) = ((320 : Nat), (240 : Nat))) := by
  refine ⟨?_, ?_, by decide⟩ <;>
    · rw [create_capture.eq_def]
      rfl

/-- C3 (amended): for every valid positive `WxH` size string, a SUCCESSFULLY
constructed generator (which requires a loadable background) records
`frame_size = (W, H)`, and every frame of the base-class `read` — as used by the base
and chess generators — has exactly those dimensions.  (Book/Cube frames instead have
the injected engine's size, see the counterexample.) -/
theorem c3_amended_size_dims (e : Env) (params : List (String × String))
    (szStr : String) (W H : Int) (b : VideoSynthBase)
    (hsz : dictGet "size" params = some szStr)
    (hparse : parseSize szStr = some (W, H))
    (hinit : VideoSynthBase.init e params = some b) :
    0 < W ∧ 0 < H ∧ b.frame_size = (W.toNat, H.toNat) ∧
    (∀ rng n, (synthResultN e (.base b, rng) n).2.width = W.toNat ∧
              (synthResultN e (.base b, rng) n).2.height = H.toNat) ∧
    (∀ rng n, (synthResultN e (.chess (Chess.init b), rng) n).2.width = W.toNat ∧
              (synthResultN e (.chess (Chess.init b), rng) n).2.height = H.toNat) := by
  unfold VideoSynthBase.init at hinit
  rw [hsz] at hinit
  cases hbg : dictGet "bg" params with
  | none =>
    rw [hbg] at hinit
    dsimp only at hinit
    rw [hparse] at hinit
    dsimp only at hinit
    exact absurd hinit (by simp)
  | some p =>
    rw [hbg] at hinit
    dsimp only at hinit
    cases him : e.imread p with
    | none =>
      rw [him] at hinit
      dsimp only at hinit
      exact absurd hinit (by simp)
    | some img =>
      rw [him] at hinit
      dsimp only at hinit
      rw [hparse] at hinit
      dsimp only at hinit
      by_cases hWH : 0 < W ∧ 0 < H
      · rw [if_pos hWH] at hinit
        dsimp only at hinit
        cases hn : (match dictGet "noise" params with
                    | none => some (0 : ℚ)
                    | some s => pyFloat s) with
        | none =>
          rw [hn] at hinit
          dsimp only at hinit
          exact absurd hinit (by simp)
        | some q =>
          rw [hn] at hinit
          dsimp only at hinit
          have hb : b = ⟨some (resizeImg e img W.toNat H.toNat), (W.toNat, H.toNat), q⟩ := by
            injection hinit with h'
            exact h'.symm
          subst hb
          refine ⟨hWH.1, hWH.2, rfl, ?_, ?_⟩
          · intro rng n
            exact ⟨(base_stream_dims e _ rng n).1, (base_stream_dims e _ rng n).2⟩
          · intro rng n
            exact ⟨(chess_stream_dims e _ rng n).1, (chess_stream_dims e _ rng n).2⟩
      · rw [if_neg hWH] at hinit
        dsimp only at hinit
        exact absurd hinit (by simp)

/-- C3 witness: the concrete size string "100x50" with a loadable background. -/
theorem c3_amended_size_dims_witness :
    dictGet "size" [("bg", "g"), ("size", "100x50")] = some "100x50" ∧
    parseSize "100x50" = some (100, 50) ∧
    VideoSynthBase.init envB [("bg", "g"), ("size", "100x50")] =
      some ⟨some (resizeImg envB img800 100 50), (100, 50), 0⟩ ∧
    (0 < (100 : Int) ∧ 0 < (50 : Int) ∧
     (⟨some (resizeImg envB img800 100 50), (100, 50), 0⟩ : VideoSynthBase).frame_size =
       ((100 : Int).toNat, (50 : Int).toNat) ∧
     (∀ rng n,
       (synthResultN envB
         (.base ⟨some (resizeImg envB img800 100 50), (100, 50), 0⟩, rng) n).2.width =
           (100 : Int).toNat ∧
       (synthResultN envB
         (.base ⟨some (resizeImg envB img800 100 50), (100, 50), 0⟩, rng) n).2.height =
           (50 : Int).toNat) ∧
     (∀ rng n,
       (synthResultN envB
         (.chess (Chess.init ⟨some (resizeImg envB img800 100 50), (100, 50), 0⟩),
          rng) n).2.width = (100 : Int).toNat ∧
       (synthResultN envB
         (.chess (Chess.init ⟨some (resizeImg envB img800 100 50), (100, 50), 0⟩),
          rng) n).2.height = (50 : Int).toNat)) :=
  ⟨rfl, rfl, rfl,
   c3_amended_size_dims envB [("bg", "g"), ("size", "100x50")] "100x50" 100 50
     ⟨some (resizeImg envB img800 100 50), (100, 50), 0⟩ rfl rfl rfl⟩
